import Mathlib

set_option maxRecDepth 8192

/-
Verification of the schema loading, reference resolution, route indexing and
example synthesis logic of `openapi_tester/loaders.py`.

Modelling conventions, used throughout:

* JSON-compatible Python values (the trees handled by the loader) are modelled
  by the inductive type `JSON`; Python dicts are association lists in insertion
  order, which is exactly the iteration and key-listing order Python guarantees.
* Python exceptions are modelled by the inductive `PyErr`; fallible functions
  return `Except PyErr _`.  `improperlyConfigured` is Django's
  `ImproperlyConfigured`, the error the specification calls
  `ConfigurationError`.
* `$ref` values are strings, as in every OpenAPI document; a non-string value
  under a `"$ref"` key is treated as plain nested data.
* Python faults from indexing or iterating a non-mapping (`TypeError`,
  `AttributeError`) are modelled uniformly as `PyErr.typeError`.
-/

inductive JSON where
  | null
  | bool (b : Bool)
  | num (n : Int)
  | str (s : String)
  | arr (elems : List JSON)
  | obj (fields : List (String × JSON))
deriving Repr

abbrev Fields := List (String × JSON)

inductive PyErr where
  | keyError
  | typeError
  | valueError
  | resolutionError
  | openAPISchemaError (msg : String)
  | undocumentedSchemaSectionError (msg : String)
  | improperlyConfigured (msg : String)
deriving Repr, DecidableEq

mutual

def decEqJSON : (a b : JSON) → Decidable (a = b)
  | .null, .null => isTrue rfl
  | .null, .bool _ => isFalse (by simp)
  | .null, .num _ => isFalse (by simp)
  | .null, .str _ => isFalse (by simp)
  | .null, .arr _ => isFalse (by simp)
  | .null, .obj _ => isFalse (by simp)
  | .bool _, .null => isFalse (by simp)
  | .bool a, .bool b =>
    if h : a = b then isTrue (by rw [h]) else isFalse (by simp [h])
  | .bool _, .num _ => isFalse (by simp)
  | .bool _, .str _ => isFalse (by simp)
  | .bool _, .arr _ => isFalse (by simp)
  | .bool _, .obj _ => isFalse (by simp)
  | .num _, .null => isFalse (by simp)
  | .num _, .bool _ => isFalse (by simp)
  | .num a, .num b =>
    if h : a = b then isTrue (by rw [h]) else isFalse (by simp [h])
  | .num _, .str _ => isFalse (by simp)
  | .num _, .arr _ => isFalse (by simp)
  | .num _, .obj _ => isFalse (by simp)
  | .str _, .null => isFalse (by simp)
  | .str _, .bool _ => isFalse (by simp)
  | .str _, .num _ => isFalse (by simp)
  | .str a, .str b =>
    if h : a = b then isTrue (by rw [h]) else isFalse (by simp [h])
  | .str _, .arr _ => isFalse (by simp)
  | .str _, .obj _ => isFalse (by simp)
  | .arr _, .null => isFalse (by simp)
  | .arr _, .bool _ => isFalse (by simp)
  | .arr _, .num _ => isFalse (by simp)
  | .arr _, .str _ => isFalse (by simp)
  | .arr a, .arr b =>
    match decEqJSONList a b with
    | isTrue h => isTrue (by rw [h])
    | isFalse h => isFalse (by simp [h])
  | .arr _, .obj _ => isFalse (by simp)
  | .obj _, .null => isFalse (by simp)
  | .obj _, .bool _ => isFalse (by simp)
  | .obj _, .num _ => isFalse (by simp)
  | .obj _, .str _ => isFalse (by simp)
  | .obj _, .arr _ => isFalse (by simp)
  | .obj a, .obj b =>
    match decEqJSONFields a b with
    | isTrue h => isTrue (by rw [h])
    | isFalse h => isFalse (by simp [h])

def decEqJSONList : (a b : List JSON) → Decidable (a = b)
  | [], [] => isTrue rfl
  | [], _ :: _ => isFalse (by simp)
  | _ :: _, [] => isFalse (by simp)
  | x :: xs, y :: ys =>
    match decEqJSON x y, decEqJSONList xs ys with
    | isTrue h1, isTrue h2 => isTrue (by rw [h1, h2])
    | isFalse h1, _ => isFalse (by simp [h1])
    | _, isFalse h2 => isFalse (by simp [h2])

def decEqJSONFields : (a b : Fields) → Decidable (a = b)
  | [], [] => isTrue rfl
  | [], _ :: _ => isFalse (by simp)
  | _ :: _, [] => isFalse (by simp)
  | (k1, v1) :: xs, (k2, v2) :: ys =>
    if hk : k1 = k2 then
      match decEqJSON v1 v2, decEqJSONFields xs ys with
      | isTrue h1, isTrue h2 => isTrue (by rw [hk, h1, h2])
      | isFalse h1, _ => isFalse (by simp [h1])
      | _, isFalse h2 => isFalse (by simp [h2])
    else isFalse (by simp [hk])

end

instance : DecidableEq JSON := decEqJSON

def exceptDecEq {e a : Type} [DecidableEq e] [DecidableEq a] : (x y : Except e a) → Decidable (x = y)
  | .ok v, .ok w => if h : v = w then isTrue (by rw [h]) else isFalse (by simp [h])
  | .ok _, .error _ => isFalse (by simp)
  | .error _, .ok _ => isFalse (by simp)
  | .error v, .error w => if h : v = w then isTrue (by rw [h]) else isFalse (by simp [h])

instance {e a : Type} [DecidableEq e] [DecidableEq a] : DecidableEq (Except e a) := exceptDecEq

/-- Python's substring test `pat in s`. -/
def containsSubstr (s pat : String) : Bool :=
  decide (pat.data <:+: s.data)

/-- Splits a character list at every character satisfying `p`; kept segments
include empty runs, like Python's `str.split(sep)` with an explicit
separator. -/
def splitChar (p : Char → Bool) : List Char → List (List Char)
  | [] => [[]]
  | c :: cs =>
    if p c then [] :: splitChar p cs
    else
      match splitChar p cs with
      | [] => [[c]]
      | h :: t => (c :: h) :: t

/-- Python's no-argument `str.split()`: split on whitespace runs, dropping
empty segments. -/
def pySplit (s : String) : List String :=
  ((splitChar Char.isWhitespace s.data).map (fun l => (⟨l⟩ : String))).filter (· ≠ "")

/-- Python's `sep.join(parts)`. -/
def pyJoin (sep : String) : List String → String
  | [] => ""
  | [x] => x
  | x :: xs => x ++ sep ++ pyJoin sep xs

/-- Python's `str.lower()` (ASCII range, which covers HTTP methods). -/
def pyLower (s : String) : String := ⟨s.data.map Char.toLower⟩

/-- Python's `str.upper()` (ASCII range). -/
def pyUpper (s : String) : String := ⟨s.data.map Char.toUpper⟩

def digitChar (n : Nat) : Char := Char.ofNat (48 + n)

def natDigitsAux : Nat → Nat → List Char
  | 0, _ => []
  | fuel + 1, n =>
    if n = 0 then [] else natDigitsAux fuel (n / 10) ++ [digitChar (n % 10)]

def natDigits (n : Nat) : List Char :=
  if n = 0 then ['0'] else natDigitsAux n n

/-- Python's `str(i)` for an integer. -/
def pyStrInt (i : Int) : String :=
  match i with
  | .ofNat n => ⟨natDigits n⟩
  | .negSucc m => ⟨'-' :: natDigits (m + 1)⟩

/-- Python dict lookup on an association list (first binding wins). -/
def lookupField : Fields → String → Option JSON
  | [], _ => none
  | (k, v) :: rest, key => if k = key then some v else lookupField rest key

/-- The keys of a mapping node, in order; `[]` for non-mappings (any Python
fault from enumerating a non-mapping surfaces as a `typeError` at the next
indexing step, so the key list itself is never observed there). -/
def objKeys : JSON → List String
  | .obj fs => fs.map (·.1)
  | _ => []

/-- The `keys = [key for key in fragment.split('/') if key]` computation of
`handle_recursion_limit`. -/
def fragKeys (fragment : String) : List String :=
  ((splitChar (· = '/') fragment.data).map (fun l => (⟨l⟩ : String))).filter (· ≠ "")

/-- The fragment part of a local JSON reference: `#/definitions/A` has
fragment `/definitions/A` (`urlparse(...).fragment`).  A reference that does
not start with `#` is not document-local. -/
def refFragment (r : String) : Option String :=
  match r.data with
  | '#' :: rest => some ⟨rest⟩
  | _ => none

/-- The sentinel node `{'x-recursive-ref-replaced': True}` that
`remove_recursive_ref` substitutes for a recursive reference edge. -/
def sentinel : JSON := .obj [("x-recursive-ref-replaced", .bool true)]

mutual

/-- Embeds `remove_recursive_ref(schema, fragment)` of `loaders.py`: for each
mapping entry whose value is itself a mapping, replace the value by the
sentinel when it carries a `$ref` containing `fragment`, and otherwise rewrite
it recursively; non-mapping values (including sequences) are left untouched.
The Python function mutates `schema` in place and returns it; the pure model
returns the rewritten tree, and the in-place effect on the curried original
schema is tracked separately by `mutateAt`. -/
def remove_recursive_ref : JSON → String → JSON
  | .obj fields, fragment => .obj (removeRecFields fields fragment)
  | j, _ => j

def removeRecFields : Fields → String → Fields
  | [], _ => []
  | (k, v) :: rest, fragment =>
    (match v with
     | .obj vf =>
       match lookupField vf "$ref" with
       | some (.str r) =>
         if containsSubstr r fragment then (k, sentinel)
         else (k, remove_recursive_ref (.obj vf) fragment)
       | _ => (k, remove_recursive_ref (.obj vf) fragment)
     | _ => (k, v)) :: removeRecFields rest fragment

end

/-- Successive Python dict indexing `definition = definition[key]` along a key
list: a missing key raises `KeyError`, indexing a non-mapping raises
`TypeError`. -/
def walkE : JSON → List String → Except PyErr JSON
  | j, [] => .ok j
  | .obj fs, k :: ks =>
    match lookupField fs k with
    | some v => walkE v ks
    | none => .error .keyError
  | _, _ :: _ => .error .typeError

/-- Embeds the `handler` closure of `handle_recursion_limit(schema)`: walk the
fragment's key path into the curried schema, then apply
`remove_recursive_ref`; a `KeyError` during the walk yields `{}`; any other
fault propagates. -/
def handle_recursion_limit (schema : JSON) (fragment : String) : Except PyErr JSON :=
  match walkE schema (fragKeys fragment) with
  | .ok definition => .ok (remove_recursive_ref definition fragment)
  | .error .keyError => .ok (.obj [])
  | .error e => .error e

/-- The in-place effect of a `handle_recursion_limit` invocation on the schema
object it curried: the subtree at the fragment's key path is rewritten by
`remove_recursive_ref` (the walked `definition` is a live subobject of the
schema, so mutating it mutates the schema). -/
def mutateAt : JSON → List String → String → JSON
  | j, [], frag => remove_recursive_ref j frag
  | .obj fs, k :: ks, frag =>
    .obj (fs.map (fun kv => if kv.1 = k then (kv.1, mutateAt kv.2 ks frag) else kv))
  | j, _ :: _, _ => j

abbrev ResolveResult := Except PyErr (JSON × JSON)

abbrev ExpandFn := List (List String) → JSON → JSON → Option ResolveResult

mutual

/-- Modelled from the spec: prance's `RefResolver.resolve_references` is an
external dependency, so whole-document reference expansion is modelled from
spec section 4.1.  Every node is traversed; a mapping carrying a string-valued
local `$ref` is replaced by the resolved target of the reference; when a
reference re-enters a fragment currently being expanded on the active
resolution path, the recursion-limit handler of `loaders.py`
(`handle_recursion_limit` / `remove_recursive_ref`, embedded above) supplies
the substituted value instead, reading the schema that existed before
dereferencing started, and its result is not expanded further; an
unresolvable reference (dangling local path, or a non-local URI, whose
retrieval is out of scope) fails with prance's `ResolutionError`.  The pair
returned is (resolved node, schema object after in-place handler mutations).
`expandFn` performs the recursive expansion one nesting level deeper and is
tied by `resolveN`, which charges one unit of fuel per expansion. -/
def goNode (base : JSON) (expandFn : ExpandFn) (active : List (List String)) (ms : JSON) :
    JSON → Option ResolveResult
  | .obj fields =>
    match lookupField fields "$ref" with
    | some (.str r) =>
      match refFragment r with
      | none => some (.error .resolutionError)
      | some frag =>
        if (fragKeys frag) ∈ active then
          match walkE base (fragKeys frag) with
          | .ok defn => some (.ok (remove_recursive_ref defn frag, mutateAt ms (fragKeys frag) frag))
          | .error .keyError => some (.ok (.obj [], ms))
          | .error e => some (.error e)
        else
          match walkE base (fragKeys frag) with
          | .ok target => expandFn ((fragKeys frag) :: active) ms target
          | .error _ => some (.error .resolutionError)
    | _ =>
      match goFields base expandFn active ms fields with
      | some (.ok (fs2, m2)) => some (.ok (.obj fs2, m2))
      | some (.error e) => some (.error e)
      | none => none
  | .arr elems =>
    match goElems base expandFn active ms elems with
    | some (.ok (xs2, m2)) => some (.ok (.arr xs2, m2))
    | some (.error e) => some (.error e)
    | none => none
  | .null => some (.ok (.null, ms))
  | .bool b => some (.ok (.bool b, ms))
  | .num n => some (.ok (.num n, ms))
  | .str s => some (.ok (.str s, ms))

def goFields (base : JSON) (expandFn : ExpandFn) (active : List (List String)) (ms : JSON) :
    Fields → Option (Except PyErr (Fields × JSON))
  | [] => some (.ok ([], ms))
  | (k, v) :: rest =>
    match goNode base expandFn active ms v with
    | some (.ok (v2, m1)) =>
      match goFields base expandFn active m1 rest with
      | some (.ok (rest2, m2)) => some (.ok ((k, v2) :: rest2, m2))
      | some (.error e) => some (.error e)
      | none => none
    | some (.error e) => some (.error e)
    | none => none

def goElems (base : JSON) (expandFn : ExpandFn) (active : List (List String)) (ms : JSON) :
    List JSON → Option (Except PyErr (List JSON × JSON))
  | [] => some (.ok ([], ms))
  | x :: rest =>
    match goNode base expandFn active ms x with
    | some (.ok (x2, m1)) =>
      match goElems base expandFn active m1 rest with
      | some (.ok (rest2, m2)) => some (.ok (x2 :: rest2, m2))
      | some (.error e) => some (.error e)
      | none => none
    | some (.error e) => some (.error e)
    | none => none

end

/-- The reference-resolution engine, fuelled: one unit of fuel is consumed per
nested reference expansion, so the fuel bounds the expansion nesting depth;
`none` means the fuel ran out.  `resolveN_total` below proves that
`countFree base active + 1` units always suffice, which is the termination
property of resolution. -/
def resolveN : Nat → JSON → List (List String) → JSON → JSON → Option ResolveResult
  | 0, _, _, _, _ => none
  | fuel + 1, base, active, ms, node => goNode base (resolveN fuel base) active ms node

mutual

/-- All key paths of a tree: the lists of mapping keys that successive dict
indexing can walk. -/
def keyPaths : JSON → List (List String)
  | .obj fs => [] :: keyPathsFields fs
  | _ => [[]]

def keyPathsFields : Fields → List (List String)
  | [] => []
  | (k, v) :: rest => (keyPaths v).map (k :: ·) ++ keyPathsFields rest

end

/-- The number of key paths of `base` not yet on the active resolution path:
the measure that bounds the reference-expansion nesting depth. -/
def countFree (base : JSON) (active : List (List String)) : Nat :=
  ((keyPaths base).filter (fun p => decide (p ∉ active))).length

/-- Embeds `BaseSchemaLoader.dereference_schema`: run the resolver on the
schema (the recursion-limit handler curries that same schema object) and
convert prance's `ResolutionError` into
`OpenAPISchemaError('infinite recursion error')`; the pair returned is
(resolver output, the input schema object after in-place handler mutations).
The `basePath` / `self.base_path` URL is consulted only for non-local
references, whose retrieval is out of scope. -/
def dereference_schema (fuel : Nat) (schema : JSON) : Option (Except PyErr (JSON × JSON)) :=
  match resolveN fuel schema [] schema schema with
  | some (.error .resolutionError) => some (.error (.openAPISchemaError "infinite recursion error"))
  | r => r

structure SetSchemaResult where
  original_schema : JSON
  schema : JSON
deriving Repr, DecidableEq

/-- Embeds `BaseSchemaLoader.set_schema`: dereference the raw schema, validate
the dereferenced form, then dereference once more; `self.original_schema` is
assigned the raw schema object itself (as mutated in place by any recursion
handling during the first dereference pass) and `self.schema` the
doubly-dereferenced form.  The meta-schema validation step
(`openapi_spec_validator`) is an external dependency and is passed in as
`validate`. -/
def set_schema (fuel : Nat) (validate : JSON → Except PyErr Unit) (schema : JSON) :
    Option (Except PyErr SetSchemaResult) :=
  match dereference_schema fuel schema with
  | none => none
  | some (.error e) => some (.error e)
  | some (.ok (d1, ms1)) =>
    match validate d1 with
    | .error e => some (.error e)
    | .ok _ =>
      match dereference_schema fuel d1 with
      | none => none
      | some (.error e) => some (.error e)
      | some (.ok (d2, _)) => some (.ok ⟨ms1, d2⟩)

mutual

/-- Holds when no mapping anywhere in the tree carries a string-valued
`$ref` entry, i.e. the tree is already fully dereferenced. -/
def refFree : JSON → Bool
  | .obj fields =>
    (match lookupField fields "$ref" with
     | some (.str _) => false
     | _ => true) && refFreeFields fields
  | .arr elems => refFreeElems elems
  | _ => true

def refFreeFields : Fields → Bool
  | [] => true
  | (_, v) :: rest => refFree v && refFreeFields rest

def refFreeElems : List JSON → Bool
  | [] => true
  | x :: rest => refFree x && refFreeElems rest

end

mutual

/-- Whether the sentinel key `x-recursive-ref-replaced` occurs anywhere in the
tree. -/
def containsSentinel : JSON → Bool
  | .obj fields =>
    (match lookupField fields "x-recursive-ref-replaced" with
     | some _ => true
     | none => false) || containsSentinelFields fields
  | .arr elems => containsSentinelElems elems
  | _ => false

def containsSentinelFields : Fields → Bool
  | [] => false
  | (_, v) :: rest => containsSentinel v || containsSentinelFields rest

def containsSentinelElems : List JSON → Bool
  | [] => false
  | x :: rest => containsSentinel x || containsSentinelElems rest

end

mutual

/-- Whether some mapping value reachable through mapping entries (the only
positions `remove_recursive_ref` inspects) is itself a mapping whose `$ref`
contains `fragment` — a "cyclic edge" in the sense of that function. -/
def hasCyclicEdge (fragment : String) : JSON → Bool
  | .obj fields => hasCyclicEdgeFields fragment fields
  | _ => false

def hasCyclicEdgeFields (fragment : String) : Fields → Bool
  | [] => false
  | (_, v) :: rest =>
    (match v with
     | .obj vf =>
       (match lookupField vf "$ref" with
        | some (.str r) => containsSubstr r fragment
        | _ => false) || hasCyclicEdge fragment (.obj vf)
     | _ => false) || hasCyclicEdgeFields fragment rest

end

/-- The f-string of `BaseSchemaLoader.index_schema`'s error. -/
def indexErrorMsg (var error_addon : String) : String :=
  "Failed indexing schema.\n\nError: Unsuccessfully tried to index the OpenAPI schema by `"
    ++ var ++ "`. " ++ error_addon

/-- Embeds `BaseSchemaLoader.index_schema`: index a mapping by `var`,
failing with `UndocumentedSchemaSectionError` on a missing key; the error
message interpolates `var` and `error_addon` exactly as the f-string in
the source does.  Indexing a non-mapping is a `typeError`. -/
def index_schema (schema : JSON) (var error_addon : String) : Except PyErr JSON :=
  match schema with
  | .obj fs =>
    match lookupField fs var with
    | some v => .ok v
    | none => .error (.undocumentedSchemaSectionError (indexErrorMsg var error_addon))
  | _ => .error .typeError

def httpMethods : List String := ["get", "post", "put", "patch", "delete", "options", "head"]

/-- Embeds `BaseSchemaLoader.validate_method`: the lowercased method must be
one of the seven listed HTTP methods, otherwise `ImproperlyConfigured` (the
spec's `ConfigurationError`) is raised.  The `isinstance(method, str)` guard
holds by the Lean type. -/
def validate_method (method : String) : Except PyErr String :=
  if pyLower method ∈ httpMethods then .ok method
  else
    .error (.improperlyConfigured
      ("Method `" ++ method ++ "` is invalid. Should be one of: "
        ++ pyJoin ", " (httpMethods.map pyUpper) ++ "."))

/-- Embeds `BaseSchemaLoader.validate_string`: `isinstance(string, str)` holds
by the Lean type, so the check always passes. -/
def validate_string (_string _name : String) : Except PyErr Unit := .ok ()

/-- Embeds `BaseSchemaLoader.validate_status_code` for an integer status code
(`int(status_code)` succeeds on every integer): the code must lie in
`[100, 505]`, otherwise `ImproperlyConfigured` is raised. -/
def validate_status_code (status_code : Int) : Except PyErr Unit :=
  if 100 ≤ status_code ∧ status_code ≤ 505 then .ok ()
  else .error (.improperlyConfigured "`status_code` should be a valid HTTP response code.")

/-- Modelled from the spec: the `Route` class lives in `openapi_tester/route.py`,
which is not part of the sources under scrutiny.  Per spec sections 3 and 4.4 a
route carries the deparameterized path template and the resolved path, and its
`get_path()` method yields, call by call, the template followed by variants
with the route's parameter placeholders substituted one by one (raising
`IndexError` when exhausted); `variants` lists those successive return values,
so `variants.length = parameters.length + 1`. -/
structure Route where
  deparameterized_path : String
  resolved_path : String
  parameters : List String
  variants : List String
deriving Repr, DecidableEq

/-- A route without parameter placeholders: `get_path()` always returns the
path itself, once. -/
def routeNoParams (r : String) : Route := ⟨r, r, [], [r]⟩

/-- Embeds the retry loop of `get_response_schema_section`
(`for _ in range(len(route_object.parameters) + 1)`): each iteration indexes
`paths_schema` by the next `get_path()` variant, breaking on success; an
`UndocumentedSchemaSectionError` is stored in `error` (overwriting any earlier
one) and the next variant tried; when the variants are exhausted
(`IndexError` from `get_path`) or the iteration count runs out, the stored
`error` is re-raised (`raise None` would be a `TypeError`, which is
unreachable because the first iteration always stores an error first). -/
def indexRouteAttempts (paths_schema : JSON) (error_addon : String) :
    Nat → List String → Option PyErr → Except PyErr JSON
  | 0, _, stored => .error (stored.getD .typeError)
  | _ + 1, [], stored => .error (stored.getD .typeError)
  | iters + 1, v :: vs, stored =>
    match index_schema paths_schema v error_addon with
    | .ok r => .ok r
    | .error e => indexRouteAttempts paths_schema error_addon iters vs (some e)

/-- Embeds `BaseSchemaLoader.get_response_schema_section`.  Arguments supplied
by the object state or the environment appear as parameters: `schema` is the
resolved schema returned by `self.get_schema()`, `i18nName` is the
`settings.parameterized_i18n_name` configuration value, `route_object` is
`self.get_route(route)` (the `Route` class is spec-modelled above), and
`skipValidationWarning` is the `skip_validation_warning` keyword argument. -/
def get_response_schema_section (schema : JSON) (i18nName : Option String)
    (route : String) (route_object : Route) (method : String) (status_code : Int)
    (skipValidationWarning : Bool) : Except PyErr JSON := do
  let _ ← validate_method method
  let _ ← validate_string route "route"
  let _ ← validate_status_code status_code
  -- Index by paths
  let paths_schema ← index_schema schema "paths" ""
  -- Index by route
  let routes := pyJoin ", " (objKeys paths_schema)
  let route_error :=
    if routes ≠ "" then
      (match i18nName with
       | some name =>
         "\n\nDid you specify the correct i18n parameter name? Your project settings specify `"
           ++ name
           ++ "` as the name of your parameterized language, meaning a path like `/api/en/items` will be indexed as `/api/\x7b"
           ++ name ++ "\x7d/items`."
       | none => "")
      ++ "\n\nFor debugging purposes, other valid routes include: \n\n\t• "
      ++ pyJoin "\n\t• " (pySplit routes)
    else ""
  let route_error :=
    if skipValidationWarning then
      route_error ++ "\n\nTo skip validation for this route you can add `^" ++ route
        ++ "$` to your VALIDATION_EXEMPT_URLS setting list in your OPENAPI_TESTER.MIDDLEWARE settings."
    else route_error
  let route_schema ←
    indexRouteAttempts paths_schema route_error (route_object.parameters.length + 1)
      route_object.variants none
  -- Index by method
  let joined_methods :=
    pyJoin ", " (((objKeys route_schema).map pyUpper).filter (· ≠ "PARAMETERS"))
  let method_error :=
    if joined_methods ≠ "" then "\n\nAvailable methods include: " ++ joined_methods ++ "."
    else ""
  let method_schema ← index_schema route_schema (pyLower method) method_error
  -- Index by responses
  let responses_schema ← index_schema method_schema "responses" ""
  -- Index by status code
  let responses := pyJoin ", " (objKeys responses_schema)
  let status_code_error :=
    (if responses ≠ "" then "\n\nDocumented responses include: " ++ responses ++ ". " else "")
      ++ " Is the `" ++ pyStrInt status_code ++ "` response documented?"
  let status_code_schema ←
    index_schema responses_schema (pyStrInt status_code) status_code_error
  -- v3 content-type unwrapping
  let status_code_schema :=
    match status_code_schema with
    | .obj fs =>
      match lookupField fs "content" with
      | some (.obj cfs) =>
        match lookupField cfs "application/json" with
        | some aj => aj
        | none => .obj fs
      | _ => .obj fs
    | s => s
  index_schema status_code_schema "schema" ""

/-- Modelled from the spec: `type_placeholder_value` lives in
`openapi_tester/utils.py`, which is not part of the sources under scrutiny.
Per spec section 4.5 it returns a fixed, type-appropriate placeholder value
(an empty-but-typed sentinel per declared `type`). -/
def type_placeholder_value : JSON → JSON
  | .str "string" => .str ""
  | .str "integer" => .num 0
  | .str "number" => .num 0
  | .str "boolean" => .bool false
  | _ => .null

/-- Auxiliary size bound: a value found by dict lookup is structurally smaller
than the field list holding it (used for termination of the synthesizer). -/
def sizeOf_lookupField_lt :
    ∀ (fs : Fields) (k : String) (v : JSON), lookupField fs k = some v → sizeOf v < sizeOf fs := by
  intro fs k v h
  induction fs with
  | nil => simp [lookupField] at h
  | cons kv rest ih =>
    obtain ⟨k1, v1⟩ := kv
    simp only [lookupField] at h
    by_cases hk : k1 = k
    · rw [if_pos hk] at h
      injection h with h
      subst h
      simp
      omega
    · rw [if_neg hk] at h
      have := ih h
      simp
      omega

mutual

/-- Embeds the per-property-value logic of the loop body of
`BaseSchemaLoader._iterate_schema_dict`: a non-mapping value raises
`ValueError`; `value['type']` is fetched (`KeyError` when absent) before
`example` is consulted; a declared `example` is returned verbatim; object and
array types recurse; other types yield `type_placeholder_value`. -/
def synthValue : JSON → Except PyErr JSON
  | .obj vf =>
    match lookupField vf "type" with
    | none => .error .keyError
    | some value_type =>
      match lookupField vf "example" with
      | some ex => .ok ex
      | none =>
        if value_type = JSON.str "object" then _iterate_schema_dict vf
        else if value_type = JSON.str "array" then _iterate_schema_list vf
        else .ok (type_placeholder_value value_type)
  | _ => .error .valueError
termination_by v => sizeOf v
decreasing_by
  · simp_arith
  · simp_arith

/-- Embeds `BaseSchemaLoader._iterate_schema_dict`: iterate `properties` (or a
single synthetic `''` entry holding `additionalProperties`, whose absence is a
`KeyError`), building a mapping of synthesized values via `synthValue`. -/
def _iterate_schema_dict (schema_object : Fields) : Except PyErr JSON :=
  match hp : lookupField schema_object "properties" with
  | some (.obj pfs) =>
    (match iterProps pfs with
     | .ok out => .ok (.obj out)
     | .error e => .error e)
  | some _ => .error .typeError
  | none =>
    match ha : lookupField schema_object "additionalProperties" with
    | some ap =>
      (match synthValue ap with
       | .ok parsed => .ok (.obj [("", parsed)])
       | .error e => .error e)
    | none => .error .keyError
termination_by sizeOf schema_object
decreasing_by
  · have := sizeOf_lookupField_lt _ _ _ hp
    simp at this
    omega
  · have := sizeOf_lookupField_lt _ _ _ ha
    omega

def iterProps : Fields → Except PyErr Fields
  | [] => .ok []
  | (key, value) :: rest =>
    match synthValue value with
    | .ok parsed =>
      (match iterProps rest with
       | .ok out => .ok ((key, parsed) :: out)
       | .error e => .error e)
    | .error e => .error e
termination_by fs => sizeOf fs
decreasing_by
  · simp_arith
  · simp_arith

/-- Embeds `BaseSchemaLoader._iterate_schema_list`: fetch `items` (`KeyError`
if absent; `TypeError` if it is not a mapping, from `raw_items['type']`), then
its `type` before `example` is consulted; the single synthesized element comes
from the declared `example`, recursion for object/array items, or the type
placeholder. -/
def _iterate_schema_list (schema_array : Fields) : Except PyErr JSON :=
  match hi : lookupField schema_array "items" with
  | some (.obj ifs) =>
    (match lookupField ifs "type" with
     | none => .error .keyError
     | some items_type =>
       match
         (match lookupField ifs "example" with
          | some ex => Except.ok ex
          | none =>
            if items_type = JSON.str "object" then _iterate_schema_dict ifs
            else if items_type = JSON.str "array" then _iterate_schema_list ifs
            else .ok (type_placeholder_value items_type)) with
       | .ok parsed => .ok (.arr [parsed])
       | .error e => .error e)
  | some _ => .error .typeError
  | none => .error .keyError
termination_by sizeOf schema_array
decreasing_by
  · have := sizeOf_lookupField_lt _ _ _ hi
    simp at this
    omega
  · have := sizeOf_lookupField_lt _ _ _ hi
    simp at this
    omega

end

/-- Embeds `BaseSchemaLoader.create_dict_from_schema`: `schema['type']` is
fetched first (`KeyError` when absent, even when an `example` is present,
`TypeError` on a non-mapping); a declared `example` is then returned verbatim;
array and object types recurse; any other type yields
`type_placeholder_value`. -/
def create_dict_from_schema (schema : JSON) : Except PyErr JSON :=
  match schema with
  | .obj fs =>
    match lookupField fs "type" with
    | none => .error .keyError
    | some schema_type =>
      match lookupField fs "example" with
      | some ex => .ok ex
      | none =>
        if schema_type = JSON.str "array" then _iterate_schema_list fs
        else if schema_type = JSON.str "object" then _iterate_schema_dict fs
        else .ok (type_placeholder_value schema_type)
  | _ => .error .typeError

inductive ParsedAs where
  | json (content : String)
  | yaml (content : String)
deriving Repr, DecidableEq

/-- Embeds `StaticSchemaLoader.load_schema`, up to the external file system and
parsers: `fileContent path` is the readable content of the file at `path`
(`none` when `os.path.isfile` fails or the read raises).  The branch structure
is the source's: a path containing `.json` anywhere is parsed as JSON, else
one containing `.yaml` or `.yml` anywhere is parsed as YAML, else
`ImproperlyConfigured` is raised.  The result records which parser was applied
to which content. -/
def StaticSchemaLoader.load_schema (fileContent : String → Option String)
    (path : String) : Except PyErr ParsedAs :=
  match fileContent path with
  | none =>
    .error (.improperlyConfigured
      ("The path `" ++ path
        ++ "` does not point to a valid file. Make sure to point to the specification file."))
  | some content =>
    if containsSubstr path ".json" then .ok (.json content)
    else if containsSubstr path ".yaml" ∨ containsSubstr path ".yml" then .ok (.yaml content)
    else
      .error (.improperlyConfigured
        "The specified file path does not seem to point to a JSON or YAML file.")

/-- Python's `str.endswith`. -/
def pyEndsWith (s suf : String) : Bool := decide (suf.data <:+ s.data)

/-- Extracts the successful dereference result (resolved tree, mutated input
object). -/
def derefOk (fuel : Nat) (x : JSON) : Option (JSON × JSON) :=
  match dereference_schema fuel x with
  | some (.ok p) => some p
  | _ => none

/-- Extracts the successful `set_schema` state. -/
def setSchemaOk (fuel : Nat) (validate : JSON → Except PyErr Unit) (x : JSON) :
    Option SetSchemaResult :=
  match set_schema fuel validate x with
  | some (.ok st) => some st
  | _ => none

/-- A validator that accepts every document (stands in for the external
`openapi_spec_validator` on structurally valid inputs). -/
def acceptAll : JSON → Except PyErr Unit := fun _ => .ok ()

/-- Direct self-reference: `definitions.A.properties.child` refers back to
`#/definitions/A`. -/
def selfRefSchema : JSON :=
  .obj [("definitions", .obj [("A", .obj [("properties", .obj [("child",
    .obj [("$ref", .str "#/definitions/A")])])])])]

/-- The resolved form of `selfRefSchema`: the reference is expanded once and
the re-entrant edge inside that expansion is replaced by the sentinel. -/
def selfRefResolved : JSON :=
  .obj [("definitions", .obj [("A", .obj [("properties", .obj [("child",
    .obj [("properties", .obj [("child",
      .obj [("properties", .obj [("child", sentinel)])])])])])])])]

/-- The caller's `selfRefSchema` object after `set_schema`: the recursion
handler has overwritten the cyclic edge in place with the sentinel. -/
def selfRefMutated : JSON :=
  .obj [("definitions", .obj [("A", .obj [("properties", .obj [("child", sentinel)])])])]

/-- Indirect mutual recursion: `A` refers to `B` and `B` back to `A`. -/
def mutualSchema : JSON :=
  .obj [("definitions", .obj [
    ("A", .obj [("properties", .obj [("b", .obj [("$ref", .str "#/definitions/B")])])]),
    ("B", .obj [("properties", .obj [("a", .obj [("$ref", .str "#/definitions/A")])])])])]

/-- The result of resolving `mutualSchema` once (obtained by evaluating the
resolver; `c1_counterexample` re-checks it by kernel computation): each
re-entered definition is substituted raw, so a `$ref` survives in the output
and no sentinel is ever introduced. -/
def mutualOnce : JSON :=
  .obj [("definitions", .obj [
    ("A", .obj [("properties", .obj [("b",
      .obj [("properties", .obj [("a",
        .obj [("properties", .obj [("b",
          .obj [("properties", .obj [("a",
            .obj [("$ref", .str "#/definitions/A")])])])])])])])])]),
    ("B", .obj [("properties", .obj [("a",
      .obj [("properties", .obj [("b",
        .obj [("properties", .obj [("a",
          .obj [("properties", .obj [("b",
            .obj [("$ref", .str "#/definitions/B")])])])])])])])])])])]

/-- A dangling reference: `#/definitions/Missing` has no target. -/
def danglingSchema : JSON :=
  .obj [("definitions", .obj []), ("x", .obj [("$ref", .str "#/definitions/Missing")])]

/-- The response schema fragment used by the concrete lookup examples. -/
def fragmentS : JSON := .obj [("type", .str "array")]

/-- A resolved schema documenting `GET /items` with a single `200` response in
v3 content wrapping:
`paths./items.get.responses.200.content.application/json.schema = fragmentS`. -/
def itemsSchema : JSON :=
  .obj [("paths", .obj [("/items", .obj [("get", .obj [("responses", .obj [("200",
    .obj [("content", .obj [("application/json",
      .obj [("schema", fragmentS)])])])])])])])]

/-- A resolved schema documenting `PATCH /items` with a plain (v2-style) `200`
response: `paths./items.patch.responses.200.schema = fragmentS`. -/
def patchSchema : JSON :=
  .obj [("paths", .obj [("/items", .obj [("patch", .obj [("responses", .obj [("200",
    .obj [("schema", fragmentS)])])])])])]

/-- A schema with no `paths` key and an `info` sibling. -/
def noPathsSchema1 : JSON := .obj [("info", .null)]

/-- A schema with no `paths` key and a different sibling key set. -/
def noPathsSchema2 : JSON := .obj [("swagger", .str "2.0")]

/-- A schema documenting only `/other`, used by the parameterized-retry
example. -/
def otherPathsSchema : JSON :=
  .obj [("paths", .obj [("/other", .obj [("get", .obj [("responses", .obj [("200",
    .obj [("schema", fragmentS)])])])])])]

/-- A route with one parameter: `get_path()` yields `/items/{id}` then
`/items/42`. -/
def paramRoute : Route := ⟨"/items/{id}", "/items/42", ["id"], ["/items/{id}", "/items/42"]⟩

/-- An acyclic schema containing one local reference to a scalar-typed
definition. -/
def acyclicRefSchema : JSON :=
  .obj [("definitions", .obj [("A", .obj [("type", .str "string")])]),
        ("x", .obj [("$ref", .str "#/definitions/A")])]

/-- The route-level `error_addon` produced when the schema documents only
`/other`. -/
def c9RouteAddon : String :=
  "\n\nFor debugging purposes, other valid routes include: \n\n\t• /other"

/-- A schema whose `paths` section documents two routes. -/
def twoRouteSchema : JSON :=
  .obj [("paths", .obj [("/a", .null), ("/b", .null)])]

/-- The cyclic-edge test applied to a mapping's own `$ref` entry. -/
def topRefCheck (fragment : String) (l : Fields) : Bool :=
  match lookupField l "$ref" with
  | some (JSON.str r) => containsSubstr r fragment
  | _ => false

theorem mem_keyPaths_of_walkE :
    ∀ (j : JSON) (ks : List String) (v : JSON), walkE j ks = .ok v → ks ∈ keyPaths j := by
  intro j ks
  induction ks generalizing j with
  | nil =>
    intro v _
    cases j <;> simp [keyPaths]
  | cons k ks ih =>
    intro v hw
    cases j with
    | obj fs =>
      simp only [walkE] at hw
      cases hlk : lookupField fs k with
      | none => rw [hlk] at hw; exact absurd hw (by simp)
      | some w =>
        rw [hlk] at hw
        have hmem : ks ∈ keyPaths w := ih w v hw
        simp only [keyPaths, List.mem_cons]
        right
        clear hw
        induction fs with
        | nil => simp [lookupField] at hlk
        | cons kv rest ihf =>
          obtain ⟨k1, v1⟩ := kv
          simp only [lookupField] at hlk
          by_cases hk : k1 = k
          · subst hk
            simp only [if_pos rfl] at hlk
            injection hlk with h; subst h
            simp only [keyPathsFields, List.mem_append, List.mem_map]
            exact .inl ⟨ks, hmem, rfl⟩
          · rw [if_neg hk] at hlk
            simp only [keyPathsFields, List.mem_append]
            exact .inr (ihf hlk)
    | null => simp [walkE] at hw
    | bool b => simp [walkE] at hw
    | num n => simp [walkE] at hw
    | str s => simp [walkE] at hw
    | arr xs => simp [walkE] at hw

theorem length_filter_le_of_imp {α : Type} (l : List α) (p q : α → Bool)
    (h : ∀ x, q x = true → p x = true) : (l.filter q).length ≤ (l.filter p).length := by
  induction l with
  | nil => simp
  | cons x xs ih =>
    by_cases hq : q x = true
    · simp [List.filter_cons, hq, h x hq]; omega
    · simp only [List.filter_cons]
      rw [Bool.not_eq_true] at hq
      rw [hq]
      cases hp : p x <;> simp <;> omega

theorem countFree_lt (base : JSON) (active : List (List String)) (ks : List String)
    (hmem : ks ∈ keyPaths base) (hact : ks ∉ active) :
    countFree base (ks :: active) < countFree base active := by
  unfold countFree
  have himp : ∀ p : List String,
      (decide (p ∉ ks :: active)) = true → (decide (p ∉ active)) = true := by
    intro p hp
    simp only [decide_eq_true_eq] at *
    intro hmem2; exact hp (List.mem_cons_of_mem _ hmem2)
  generalize (keyPaths base) = l at hmem ⊢
  induction l with
  | nil => simp at hmem
  | cons x xs ih =>
    rcases List.mem_cons.mp hmem with heq | hx
    · have hxm : x ∈ ks :: active := by rw [← heq]; exact List.mem_cons_self _ _
      have hcond1 : ¬((decide (x ∉ ks :: active)) = true) := by
        simp only [decide_eq_true_eq, Decidable.not_not]
        exact hxm
      have hcond2 : (decide (x ∉ active)) = true := by
        rw [← heq]; exact decide_eq_true (by simpa using hact)
      rw [List.filter_cons, List.filter_cons, if_neg hcond1, if_pos hcond2]
      have hle := length_filter_le_of_imp xs _ _ himp
      simp only [List.length_cons]
      omega
    · have hrec := ih hx
      by_cases h1 : x ∉ ks :: active
      · have h2 : x ∉ active := fun hm => h1 (List.mem_cons_of_mem _ hm)
        rw [List.filter_cons, List.filter_cons, if_pos (decide_eq_true h1),
          if_pos (decide_eq_true h2)]
        simp only [List.length_cons]
        omega
      · have hd1 : ¬((decide (x ∉ ks :: active)) = true) := by
          simp only [decide_eq_true_eq]; exact h1
        rw [List.filter_cons, List.filter_cons, if_neg hd1]
        by_cases h2 : x ∉ active
        · rw [if_pos (decide_eq_true h2)]
          simp only [List.length_cons]
          omega
        · have hd2 : ¬((decide (x ∉ active)) = true) := by
            simp only [decide_eq_true_eq]; exact h2
          rw [if_neg hd2]
          exact hrec

theorem goNode_total (base : JSON) :
    ∀ j : JSON, ∀ (f : ExpandFn) (active : List (List String)) (ms : JSON),
      (∀ ks ms2 t2, ks ∉ active → walkE base ks = .ok t2 → f (ks :: active) ms2 t2 ≠ none) →
      goNode base f active ms j ≠ none := by
  apply JSON.rec
    (motive_1 := fun j => ∀ (f : ExpandFn) active ms,
      (∀ ks ms2 t2, ks ∉ active → walkE base ks = .ok t2 → f (ks :: active) ms2 t2 ≠ none) →
      goNode base f active ms j ≠ none)
    (motive_2 := fun xs => ∀ (f : ExpandFn) active ms,
      (∀ ks ms2 t2, ks ∉ active → walkE base ks = .ok t2 → f (ks :: active) ms2 t2 ≠ none) →
      goElems base f active ms xs ≠ none)
    (motive_3 := fun fs => ∀ (f : ExpandFn) active ms,
      (∀ ks ms2 t2, ks ∉ active → walkE base ks = .ok t2 → f (ks :: active) ms2 t2 ≠ none) →
      goFields base f active ms fs ≠ none)
    (motive_4 := fun kv => ∀ (f : ExpandFn) active ms,
      (∀ ks ms2 t2, ks ∉ active → walkE base ks = .ok t2 → f (ks :: active) ms2 t2 ≠ none) →
      goNode base f active ms kv.2 ≠ none)
  · intro f active ms _
    simp [goNode]
  · intro b f active ms _
    simp [goNode]
  · intro n f active ms _
    simp [goNode]
  · intro s f active ms _
    simp [goNode]
  · intro xs ihxs f active ms hf
    have hne := ihxs f active ms hf
    simp only [goNode]
    cases hx : goElems base f active ms xs with
    | none => exact absurd hx hne
    | some r =>
      cases r with
      | error e => simp
      | ok p =>
        obtain ⟨xs2, m2⟩ := p
        simp
  · intro fields ihf f active ms hf
    have hfs := ihf f active ms hf
    simp only [goNode]
    split
    · split
      · simp
      · split
        · split <;> simp
        · rename_i hm
          split
          · rename_i target hw
            exact hf _ _ _ hm hw
          · simp
    · cases hx : goFields base f active ms fields with
      | none => exact absurd hx hfs
      | some r =>
        cases r with
        | ok p =>
          obtain ⟨fs2, m2⟩ := p
          simp [hx]
        | error e => simp [hx]
  · intro f active ms _
    simp [goElems]
  · intro x xs ihx ihxs f active ms hf
    simp only [goElems]
    cases hx : goNode base f active ms x with
    | none => exact absurd hx (ihx f active ms hf)
    | some r =>
      cases r with
      | error e => simp
      | ok p =>
        obtain ⟨x2, m1⟩ := p
        cases hx2 : goElems base f active m1 xs with
        | none => exact absurd hx2 (ihxs f active m1 hf)
        | some r2 =>
          cases r2 with
          | error e => simp [hx2]
          | ok p2 =>
            obtain ⟨rest2, m2⟩ := p2
            simp [hx2]
  · intro f active ms _
    simp [goFields]
  · intro kv rest ihkv ihrest f active ms hf
    obtain ⟨k, v⟩ := kv
    simp only [goFields]
    cases hx : goNode base f active ms v with
    | none => exact absurd hx (ihkv f active ms hf)
    | some r =>
      cases r with
      | error e => simp
      | ok p =>
        obtain ⟨v2, m1⟩ := p
        cases hx2 : goFields base f active m1 rest with
        | none => exact absurd hx2 (ihrest f active m1 hf)
        | some r2 =>
          cases r2 with
          | error e => simp [hx2]
          | ok p2 =>
            obtain ⟨rest2, m2⟩ := p2
            simp [hx2]
  · intro k v ihv
    exact ihv

theorem resolveN_total (base : JSON) :
    ∀ c active, countFree base active ≤ c →
      ∀ n ms j, c + 1 ≤ n → resolveN n base active ms j ≠ none := by
  intro c
  induction c using Nat.strong_induction_on with
  | _ c ih =>
    intro active hca n ms j hn
    obtain ⟨n', rfl⟩ : ∃ n', n = n' + 1 := ⟨n - 1, by omega⟩
    simp only [resolveN]
    apply goNode_total
    intro ks ms2 t2 hks hw
    have hmem := mem_keyPaths_of_walkE base ks t2 hw
    have hlt := countFree_lt base active ks hmem hks
    exact ih (countFree base (ks :: active)) (by omega) (ks :: active) le_rfl n' ms2 t2 (by omega)

theorem dereference_schema_total (schema : JSON) (n : Nat)
    (hn : countFree schema [] + 1 ≤ n) : dereference_schema n schema ≠ none := by
  have h := resolveN_total schema (countFree schema []) [] le_rfl n schema schema hn
  unfold dereference_schema
  cases hx : resolveN n schema [] schema schema with
  | none => exact absurd hx h
  | some r =>
    cases r with
    | ok p => simp
    | error e => cases e <;> simp

theorem goNode_refFree (base : JSON) :
    ∀ j : JSON, ∀ (f : ExpandFn) (active : List (List String)) (ms : JSON),
      refFree j = true → goNode base f active ms j = some (.ok (j, ms)) := by
  apply JSON.rec
    (motive_1 := fun j => ∀ (f : ExpandFn) active ms,
      refFree j = true → goNode base f active ms j = some (.ok (j, ms)))
    (motive_2 := fun xs => ∀ (f : ExpandFn) active ms,
      refFreeElems xs = true → goElems base f active ms xs = some (.ok (xs, ms)))
    (motive_3 := fun fs => ∀ (f : ExpandFn) active ms,
      refFreeFields fs = true → goFields base f active ms fs = some (.ok (fs, ms)))
    (motive_4 := fun kv => ∀ (f : ExpandFn) active ms,
      refFree kv.2 = true → goNode base f active ms kv.2 = some (.ok (kv.2, ms)))
  · intro f active ms _
    simp [goNode]
  · intro b f active ms _
    simp [goNode]
  · intro n f active ms _
    simp [goNode]
  · intro s f active ms _
    simp [goNode]
  · intro xs ihxs f active ms hrf
    simp only [refFree] at hrf
    have := ihxs f active ms hrf
    simp [goNode, this]
  · intro fields ihf f active ms hrf
    simp only [refFree, Bool.and_eq_true] at hrf
    obtain ⟨hr, hfs⟩ := hrf
    have hgo := ihf f active ms hfs
    simp only [goNode]
    cases hlk : lookupField fields "$ref" with
    | none => simp [hgo]
    | some v =>
      cases v with
      | str r => rw [hlk] at hr; simp at hr
      | null => simp [hgo]
      | bool b => simp [hgo]
      | num n => simp [hgo]
      | arr a => simp [hgo]
      | obj o => simp [hgo]
  · intro f active ms _
    simp [goElems]
  · intro x xs ihx ihxs f active ms hrf
    simp only [refFreeElems, Bool.and_eq_true] at hrf
    obtain ⟨h1, h2⟩ := hrf
    simp [goElems, ihx f active ms h1, ihxs f active ms h2]
  · intro f active ms _
    simp [goFields]
  · intro kv rest ihkv ihrest f active ms hrf
    obtain ⟨k, v⟩ := kv
    simp only [refFreeFields, Bool.and_eq_true] at hrf
    obtain ⟨h1, h2⟩ := hrf
    simp [goFields, ihkv f active ms h1, ihrest f active ms h2]
  · intro k v ihv
    exact ihv

theorem resolveN_refFree (base : JSON) (active : List (List String)) (ms j : JSON)
    (n : Nat) (hn : 1 ≤ n) (hrf : refFree j = true) :
    resolveN n base active ms j = some (.ok (j, ms)) := by
  obtain ⟨n', rfl⟩ : ∃ n', n = n' + 1 := ⟨n - 1, by omega⟩
  simp only [resolveN]
  exact goNode_refFree base j _ active ms hrf

theorem dereference_schema_refFree (schema : JSON) (n : Nat) (hn : 1 ≤ n)
    (hrf : refFree schema = true) :
    dereference_schema n schema = some (.ok (schema, schema)) := by
  unfold dereference_schema
  rw [resolveN_refFree schema [] schema schema n hn hrf]

theorem lookupField_removeRecFields (fs : Fields) (frag key : String) :
    lookupField (removeRecFields fs frag) key =
      (lookupField fs key).map (fun v =>
        match v with
        | .obj vf =>
          (match lookupField vf "$ref" with
           | some (.str r) =>
             if containsSubstr r frag then sentinel else remove_recursive_ref (.obj vf) frag
           | _ => remove_recursive_ref (.obj vf) frag)
        | v => v) := by
  induction fs with
  | nil => simp [removeRecFields, lookupField]
  | cons kv rest ih =>
    obtain ⟨k, v⟩ := kv
    by_cases hk : k = key
    · subst hk
      cases v with
      | obj vf =>
        cases hlk : lookupField vf "$ref" with
        | none => simp [removeRecFields, lookupField, hlk]
        | some w =>
          cases w with
          | str r =>
            by_cases hc : containsSubstr r frag
            · simp [removeRecFields, lookupField, hlk, hc]
            · simp [removeRecFields, lookupField, hlk, hc]
          | null => simp [removeRecFields, lookupField, hlk]
          | bool b => simp [removeRecFields, lookupField, hlk]
          | num n => simp [removeRecFields, lookupField, hlk]
          | arr a => simp [removeRecFields, lookupField, hlk]
          | obj o => simp [removeRecFields, lookupField, hlk]
      | null => simp [removeRecFields, lookupField]
      | bool b => simp [removeRecFields, lookupField]
      | num n => simp [removeRecFields, lookupField]
      | str s => simp [removeRecFields, lookupField]
      | arr a => simp [removeRecFields, lookupField]
    · cases v with
      | obj vf =>
        cases hlk : lookupField vf "$ref" with
        | none => simp [removeRecFields, lookupField, hlk, hk, ih]
        | some w =>
          cases w with
          | str r =>
            by_cases hc : containsSubstr r frag
            · simp [removeRecFields, lookupField, hlk, hc, hk, ih]
            · simp [removeRecFields, lookupField, hlk, hc, hk, ih]
          | null => simp [removeRecFields, lookupField, hlk, hk, ih]
          | bool b => simp [removeRecFields, lookupField, hlk, hk, ih]
          | num n => simp [removeRecFields, lookupField, hlk, hk, ih]
          | arr a => simp [removeRecFields, lookupField, hlk, hk, ih]
          | obj o => simp [removeRecFields, lookupField, hlk, hk, ih]
      | null => simp [removeRecFields, lookupField, hk, ih]
      | bool b => simp [removeRecFields, lookupField, hk, ih]
      | num n => simp [removeRecFields, lookupField, hk, ih]
      | str s => simp [removeRecFields, lookupField, hk, ih]
      | arr a => simp [removeRecFields, lookupField, hk, ih]

theorem hasCyclicEdgeFields_cons_obj (frag k : String) (l rest : Fields) :
    hasCyclicEdgeFields frag ((k, JSON.obj l) :: rest) =
      ((topRefCheck frag l || hasCyclicEdgeFields frag l) || hasCyclicEdgeFields frag rest) := by
  simp only [hasCyclicEdgeFields, hasCyclicEdge, topRefCheck]

theorem removeRecFields_cons_obj_str (k : String) (vf rest : Fields) (frag r : String)
    (hlk : lookupField vf "$ref" = some (JSON.str r)) :
    removeRecFields ((k, JSON.obj vf) :: rest) frag =
      (if containsSubstr r frag then (k, sentinel)
       else (k, remove_recursive_ref (JSON.obj vf) frag)) :: removeRecFields rest frag := by
  simp only [removeRecFields, hlk]

theorem removeRecFields_cons_obj_default (k : String) (vf rest : Fields) (frag : String)
    (h : ∀ r, lookupField vf "$ref" = some (JSON.str r) → False) :
    removeRecFields ((k, JSON.obj vf) :: rest) frag =
      (k, remove_recursive_ref (JSON.obj vf) frag) :: removeRecFields rest frag := by
  simp only [removeRecFields]

theorem topRefCheck_removeRec (vf : Fields) (frag : String)
    (h : ∀ r, lookupField vf "$ref" = some (JSON.str r) → containsSubstr r frag = false) :
    topRefCheck frag (removeRecFields vf frag) = false := by
  cases hlk : lookupField vf "$ref" with
  | none => simp [topRefCheck, lookupField_removeRecFields, hlk]
  | some w =>
    cases w with
    | str r => simp [topRefCheck, lookupField_removeRecFields, hlk, h r hlk]
    | null => simp [topRefCheck, lookupField_removeRecFields, hlk]
    | bool b => simp [topRefCheck, lookupField_removeRecFields, hlk]
    | num n => simp [topRefCheck, lookupField_removeRecFields, hlk]
    | arr a => simp [topRefCheck, lookupField_removeRecFields, hlk]
    | obj o =>
      cases hlk2 : lookupField o "$ref" with
      | none => simp [topRefCheck, lookupField_removeRecFields, hlk, hlk2, remove_recursive_ref]
      | some w2 =>
        cases w2 with
        | str r2 =>
          by_cases hc2 : containsSubstr r2 frag = true
          · simp [topRefCheck, lookupField_removeRecFields, hlk, hlk2, hc2, sentinel]
          · simp [topRefCheck, lookupField_removeRecFields, hlk, hlk2, hc2,
              remove_recursive_ref]
        | null => simp [topRefCheck, lookupField_removeRecFields, hlk, hlk2,
            remove_recursive_ref]
        | bool b2 => simp [topRefCheck, lookupField_removeRecFields, hlk, hlk2,
            remove_recursive_ref]
        | num n2 => simp [topRefCheck, lookupField_removeRecFields, hlk, hlk2,
            remove_recursive_ref]
        | arr a2 => simp [topRefCheck, lookupField_removeRecFields, hlk, hlk2,
            remove_recursive_ref]
        | obj o2 => simp [topRefCheck, lookupField_removeRecFields, hlk, hlk2,
            remove_recursive_ref]

theorem hasCyclicEdge_remove_recursive_ref :
    ∀ (j : JSON) (frag : String), hasCyclicEdge frag (remove_recursive_ref j frag) = false := by
  apply JSON.rec
    (motive_1 := fun j => ∀ frag, hasCyclicEdge frag (remove_recursive_ref j frag) = false)
    (motive_2 := fun _ => True)
    (motive_3 := fun fs => ∀ frag, hasCyclicEdgeFields frag (removeRecFields fs frag) = false)
    (motive_4 := fun kv => ∀ frag, hasCyclicEdge frag (remove_recursive_ref kv.2 frag) = false)
  · intro _; simp [remove_recursive_ref, hasCyclicEdge]
  · intro b _; simp [remove_recursive_ref, hasCyclicEdge]
  · intro n _; simp [remove_recursive_ref, hasCyclicEdge]
  · intro s _; simp [remove_recursive_ref, hasCyclicEdge]
  · intro xs _ _; simp [remove_recursive_ref, hasCyclicEdge]
  · intro fields ihf frag
    simp only [remove_recursive_ref, hasCyclicEdge]
    exact ihf frag
  · trivial
  · intro _ _ _ _; trivial
  · intro _; simp [removeRecFields, hasCyclicEdgeFields]
  · intro kv rest ihkv ihrest frag
    obtain ⟨k, v⟩ := kv
    have hrest := ihrest frag
    cases v with
    | obj vf =>
      have hv := ihkv frag
      simp only [remove_recursive_ref, hasCyclicEdge] at hv
      cases hlk : lookupField vf "$ref" with
      | some w =>
        cases w with
        | str r =>
          rw [removeRecFields_cons_obj_str k vf rest frag r hlk]
          by_cases hc : containsSubstr r frag = true
          · rw [if_pos hc]
            simp [sentinel, hasCyclicEdgeFields, hasCyclicEdge, lookupField, hrest]
          · rw [if_neg hc]
            simp only [remove_recursive_ref]
            rw [hasCyclicEdgeFields_cons_obj]
            have htop : topRefCheck frag (removeRecFields vf frag) = false := by
              apply topRefCheck_removeRec
              intro r2 hr2
              rw [hlk] at hr2
              injection hr2 with h1
              injection h1 with h2
              rw [← h2]
              exact Bool.eq_false_iff.mpr hc
            simp [htop, hv, hrest]
        | null =>
          rw [removeRecFields_cons_obj_default k vf rest frag
            (by intro r2 hr2; rw [hlk] at hr2; simp at hr2)]
          simp only [remove_recursive_ref]
          rw [hasCyclicEdgeFields_cons_obj]
          have htop := topRefCheck_removeRec vf frag
            (by intro r2 hr2; rw [hlk] at hr2; simp at hr2)
          simp [htop, hv, hrest]
        | bool b =>
          rw [removeRecFields_cons_obj_default k vf rest frag
            (by intro r2 hr2; rw [hlk] at hr2; simp at hr2)]
          simp only [remove_recursive_ref]
          rw [hasCyclicEdgeFields_cons_obj]
          have htop := topRefCheck_removeRec vf frag
            (by intro r2 hr2; rw [hlk] at hr2; simp at hr2)
          simp [htop, hv, hrest]
        | num n =>
          rw [removeRecFields_cons_obj_default k vf rest frag
            (by intro r2 hr2; rw [hlk] at hr2; simp at hr2)]
          simp only [remove_recursive_ref]
          rw [hasCyclicEdgeFields_cons_obj]
          have htop := topRefCheck_removeRec vf frag
            (by intro r2 hr2; rw [hlk] at hr2; simp at hr2)
          simp [htop, hv, hrest]
        | arr a =>
          rw [removeRecFields_cons_obj_default k vf rest frag
            (by intro r2 hr2; rw [hlk] at hr2; simp at hr2)]
          simp only [remove_recursive_ref]
          rw [hasCyclicEdgeFields_cons_obj]
          have htop := topRefCheck_removeRec vf frag
            (by intro r2 hr2; rw [hlk] at hr2; simp at hr2)
          simp [htop, hv, hrest]
        | obj o =>
          rw [removeRecFields_cons_obj_default k vf rest frag
            (by intro r2 hr2; rw [hlk] at hr2; simp at hr2)]
          simp only [remove_recursive_ref]
          rw [hasCyclicEdgeFields_cons_obj]
          have htop := topRefCheck_removeRec vf frag
            (by intro r2 hr2; rw [hlk] at hr2; simp at hr2)
          simp [htop, hv, hrest]
      | none =>
        rw [removeRecFields_cons_obj_default k vf rest frag
          (by intro r2 hr2; rw [hlk] at hr2; simp at hr2)]
        simp only [remove_recursive_ref]
        rw [hasCyclicEdgeFields_cons_obj]
        have htop := topRefCheck_removeRec vf frag
          (by intro r2 hr2; rw [hlk] at hr2; simp at hr2)
        simp [htop, hv, hrest]
    | null => simp [removeRecFields, hasCyclicEdgeFields, hrest]
    | bool b => simp [removeRecFields, hasCyclicEdgeFields, hrest]
    | num n => simp [removeRecFields, hasCyclicEdgeFields, hrest]
    | str s => simp [removeRecFields, hasCyclicEdgeFields, hrest]
    | arr a => simp [removeRecFields, hasCyclicEdgeFields, hrest]
  · intro k v ihv
    exact ihv

/-- C1 (amended): resolution always terminates — fuel `countFree schema [] + 1`
(one unit per reference expansion, bounded by the number of key paths not yet
active) always produces a result — and `remove_recursive_ref` replaces every
cyclic edge it defines (a mapping value whose `$ref` contains the current
fragment, reachable through mapping entries) by the sentinel, so none survive
in its output; for the direct self-reference `selfRefSchema` the resolved tree
is exactly `selfRefResolved`: the cycle edge is expanded once and then cut by
the sentinel.  The original claim's assertion that indirect mutual recursion
(`A -> B -> A`) also receives a sentinel is refuted by `c1_counterexample`. -/
theorem c1_cycle_safety :
    (∀ (j : JSON) (frag : String), hasCyclicEdge frag (remove_recursive_ref j frag) = false)
    ∧ (∀ (schema : JSON) (n : Nat), countFree schema [] + 1 ≤ n →
        dereference_schema n schema ≠ none)
    ∧ dereference_schema 100 selfRefSchema = some (.ok (selfRefResolved, selfRefMutated))
    ∧ containsSentinel selfRefResolved = true := by
  refine ⟨hasCyclicEdge_remove_recursive_ref,
    fun schema n hn => dereference_schema_total schema n hn, ?_, ?_⟩
  · decide
  · decide

theorem c1_cycle_safety_witness :
    hasCyclicEdge "/definitions/A" (remove_recursive_ref selfRefSchema "/definitions/A") = false
    ∧ dereference_schema 9 selfRefSchema ≠ none :=
  ⟨c1_cycle_safety.1 selfRefSchema "/definitions/A",
   c1_cycle_safety.2.1 selfRefSchema 9 (by decide)⟩

/-- C1 counterexample: resolving the mutually recursive `mutualSchema`
(`A -> B -> A`) terminates, but the cyclic edge is not replaced by the
sentinel: the recursion handler substitutes the re-entered definition raw (no
reference inside `A`'s definition contains `A`'s own fragment), so the output
contains no sentinel at all and still carries a `$ref`. -/
theorem c1_counterexample :
    derefOk 100 mutualSchema = some (mutualOnce, mutualSchema)
    ∧ containsSentinel mutualOnce = false
    ∧ refFree mutualOnce = false := by decide

/-- C3 (amended): whenever a single dereference pass yields a `$ref`-free tree
`d1` (which holds for all acyclic schemas and for direct self-references, whose
cycle edges become sentinels), a second pass returns `d1` unchanged, and
`set_schema` caches exactly that fixed point, so
`resolve (resolve x) = resolve x` on this class.  The unconditional claim is
refuted by `c3_counterexample`: mutual recursion leaves a `$ref` in the first
pass's output and the second pass expands it further. -/
theorem c3_idempotence :
    ∀ (x d1 m : JSON) (fuel : Nat), 1 ≤ fuel →
      dereference_schema fuel x = some (.ok (d1, m)) → refFree d1 = true →
      dereference_schema fuel d1 = some (.ok (d1, d1))
        ∧ set_schema fuel acceptAll x = some (.ok ⟨m, d1⟩) := by
  intro x d1 m fuel hfuel hx hrf
  have h2 := dereference_schema_refFree d1 fuel hfuel hrf
  refine ⟨h2, ?_⟩
  unfold set_schema
  rw [hx]
  simp [acceptAll, h2]

theorem c3_idempotence_witness :
    dereference_schema 100 selfRefResolved = some (.ok (selfRefResolved, selfRefResolved))
    ∧ set_schema 100 acceptAll selfRefSchema
        = some (.ok ⟨selfRefMutated, selfRefResolved⟩) :=
  c3_idempotence selfRefSchema selfRefResolved selfRefMutated 100 (by decide)
    (by decide) (by decide)

/-- C3 counterexample: for the mutually recursive `mutualSchema`, the first
dereference pass yields `mutualOnce` (which still contains a `$ref`), the
second pass changes the tree (`resolve (resolve x) ≠ resolve x`), and the
cached `set_schema` result differs from the single-pass output — the
double-dereferenced form does not equal the single-dereferenced form. -/
theorem c3_counterexample :
    derefOk 100 mutualSchema = some (mutualOnce, mutualSchema)
    ∧ (derefOk 100 mutualOnce).map Prod.fst ≠ some mutualOnce
    ∧ (setSchemaOk 100 acceptAll mutualSchema).map SetSchemaResult.schema
        ≠ some mutualOnce := by decide

/-- C5 (amended): the resolution step never lets prance's `ResolutionError`
escape, but it does not distinguish dangling references from recursion
failures either: every `ResolutionError` — including the dangling reference in
`danglingSchema` — is converted to the single
`OpenAPISchemaError('infinite recursion error')`; normal self-references are
not errors: `selfRefSchema` resolves successfully with the sentinel
substituted. -/
theorem c5_resolution_error_taxonomy :
    (∀ (fuel : Nat) (x : JSON),
        dereference_schema fuel x ≠ some (.error .resolutionError))
    ∧ dereference_schema 100 danglingSchema
        = some (.error (.openAPISchemaError "infinite recursion error"))
    ∧ derefOk 100 selfRefSchema = some (selfRefResolved, selfRefMutated)
    ∧ containsSentinel selfRefResolved = true := by
  refine ⟨?_, by decide, by decide, by decide⟩
  intro fuel x
  unfold dereference_schema
  cases hr : resolveN fuel x [] x x with
  | none => simp
  | some r =>
    cases r with
    | ok p => simp
    | error e => cases e <;> simp

/-- C5 counterexample: a dangling reference does not fail with a distinct
`SchemaResolutionError` — it raises the very error the claim reserves for
failed cycle handling, `OpenAPISchemaError` with message
`infinite recursion error` (the only error type `dereference_schema`
raises). -/
theorem c5_counterexample :
    dereference_schema 100 danglingSchema
      = some (.error (.openAPISchemaError "infinite recursion error")) := by decide

/-- C10 (amended): `set_schema` leaves the caller's raw schema object
unchanged when no recursion handling is triggered — proved for all `$ref`-free
schemas, and checked concretely for the acyclic `acyclicRefSchema` whose
single reference is expanded without any cycle hit.  The unconditional claim
is refuted by `c10_counterexample`: a self-referential schema is mutated in
place by the recursion handler. -/
theorem c10_raw_schema_immutability :
    (∀ (x : JSON) (fuel : Nat), 1 ≤ fuel → refFree x = true →
        set_schema fuel acceptAll x = some (.ok ⟨x, x⟩))
    ∧ (setSchemaOk 100 acceptAll acyclicRefSchema).map SetSchemaResult.original_schema
        = some acyclicRefSchema := by
  refine ⟨?_, by decide⟩
  intro x fuel hfuel hrf
  have h1 := dereference_schema_refFree x fuel hfuel hrf
  unfold set_schema
  rw [h1]
  simp [acceptAll, h1]

theorem c10_raw_schema_immutability_witness :
    set_schema 100 acceptAll itemsSchema = some (.ok ⟨itemsSchema, itemsSchema⟩) :=
  c10_raw_schema_immutability.1 itemsSchema 100 (by decide) (by decide)

/-- C10 counterexample: `set_schema` on the self-referential `selfRefSchema`
stores as `original_schema` the caller's object after the recursion handler
overwrote the cyclic edge with the sentinel in place — the cached
`original_schema` no longer equals the schema as it was supplied. -/
theorem c10_counterexample :
    (setSchemaOk 100 acceptAll selfRefSchema).map SetSchemaResult.original_schema
      = some selfRefMutated
    ∧ selfRefMutated ≠ selfRefSchema := by decide

theorem except_bind_error {e a b : Type} (err : e) (f : a → Except e b) :
    (Except.error err >>= f) = Except.error err := rfl

theorem except_bind_ok {e a b : Type} (v : a) (f : a → Except e b) :
    (Except.ok v >>= f) = f v := rfl

/-- C4 (amended): `get_response_schema_section` validates before any lookup —
for every method whose lowercased form is not among the seven listed HTTP
verbs the call fails with `ImproperlyConfigured` (the spec's
`ConfigurationError`) no matter the schema, and for every valid method with a
status code outside `[100, 505]` (e.g. `999`) it likewise fails with
`ImproperlyConfigured`.  The spec's example is wrong on one point:
`"patch"` is among the seven allowed verbs and passes validation, refuted by
`c4_counterexample`. -/
theorem c4_method_status_validation :
    (∀ (schema : JSON) (i18n : Option String) (route : String) (ro : Route)
        (method : String) (sc : Int) (skip : Bool),
        pyLower method ∉ httpMethods →
        get_response_schema_section schema i18n route ro method sc skip
          = .error (.improperlyConfigured
              ("Method `" ++ method ++ "` is invalid. Should be one of: "
                ++ pyJoin ", " (httpMethods.map pyUpper) ++ ".")))
    ∧ (∀ (schema : JSON) (i18n : Option String) (route : String) (ro : Route)
        (method : String) (sc : Int) (skip : Bool),
        pyLower method ∈ httpMethods → ¬(100 ≤ sc ∧ sc ≤ 505) →
        get_response_schema_section schema i18n route ro method sc skip
          = .error (.improperlyConfigured
              "`status_code` should be a valid HTTP response code.")) := by
  constructor
  · intro schema i18n route ro method sc skip h
    simp [get_response_schema_section, validate_method, h, except_bind_error, except_bind_ok]
  · intro schema i18n route ro method sc skip hm hsc
    simp [get_response_schema_section, validate_method, hm, validate_string,
      validate_status_code, hsc, except_bind_error, except_bind_ok]

theorem c4_method_status_validation_witness :
    get_response_schema_section itemsSchema none "/items" (routeNoParams "/items")
        "trace" 200 false
      = .error (.improperlyConfigured
          ("Method `trace` is invalid. Should be one of: "
            ++ pyJoin ", " (httpMethods.map pyUpper) ++ "."))
    ∧ get_response_schema_section itemsSchema none "/items" (routeNoParams "/items")
        "get" 999 false
      = .error (.improperlyConfigured "`status_code` should be a valid HTTP response code.") :=
  ⟨c4_method_status_validation.1 itemsSchema none "/items" (routeNoParams "/items")
      "trace" 200 false (by decide),
   c4_method_status_validation.2 itemsSchema none "/items" (routeNoParams "/items")
      "get" 999 false (by decide) (by decide)⟩

/-- C4 counterexample: contrary to the spec's example, `"patch"` is one of the
seven allowed verbs — `validate_method` accepts it and a lookup with method
`patch` succeeds, returning the documented fragment rather than failing with
`ConfigurationError`. -/
theorem c4_counterexample :
    validate_method "patch" = .ok "patch"
    ∧ get_response_schema_section patchSchema none "/items" (routeNoParams "/items")
        "patch" 200 false = .ok fragmentS := by decide

theorem walkE_nil_ok : ∀ (j v : JSON), walkE j [] = .ok v → j = v := by
  intro j v h
  cases j <;> simpa [walkE] using h

theorem walkE_cons_ok :
    ∀ (j : JSON) (k : String) (ks : List String) (v : JSON),
      walkE j (k :: ks) = .ok v →
      ∃ fs w, j = .obj fs ∧ lookupField fs k = some w ∧ walkE w ks = .ok v := by
  intro j k ks v h
  cases j with
  | obj fs =>
    simp only [walkE] at h
    cases hlk : lookupField fs k with
    | none => rw [hlk] at h; exact absurd h (by simp)
    | some w =>
      rw [hlk] at h
      exact ⟨fs, w, rfl, hlk, h⟩
  | null => simp [walkE] at h
  | bool b => simp [walkE] at h
  | num n => simp [walkE] at h
  | str s => simp [walkE] at h
  | arr xs => simp [walkE] at h

/-- C2 (confirmed): for every resolved schema in which
`paths./items.get.responses.200.content.application/json.schema` holds a
fragment `S`, the lookup `get_response_schema_section` with route `/items`,
method `get` and status code `200` returns exactly `S`: after indexing the
responses by the status code the fragment is unwrapped through
`content.application/json` and one final index by the literal key `schema` is
performed, so the caller receives the schema node, never the response-object
wrapper. -/
theorem c2_lookup_correctness :
    ∀ (schema S : JSON) (i18n : Option String) (skip : Bool),
      walkE schema ["paths", "/items", "get", "responses", "200",
        "content", "application/json", "schema"] = .ok S →
      get_response_schema_section schema i18n "/items" (routeNoParams "/items")
        "get" 200 skip = .ok S := by
  intro schema S i18n skip h
  obtain ⟨fs0, P, rfl, hP, h⟩ := walkE_cons_ok _ _ _ _ h
  obtain ⟨fs1, R, rfl, hR, h⟩ := walkE_cons_ok _ _ _ _ h
  obtain ⟨fs2, M, rfl, hM, h⟩ := walkE_cons_ok _ _ _ _ h
  obtain ⟨fs3, RS, rfl, hRS, h⟩ := walkE_cons_ok _ _ _ _ h
  obtain ⟨fs4, SC, rfl, hSC, h⟩ := walkE_cons_ok _ _ _ _ h
  obtain ⟨fs5, C, rfl, hC, h⟩ := walkE_cons_ok _ _ _ _ h
  obtain ⟨fs6, AJ, rfl, hAJ, h⟩ := walkE_cons_ok _ _ _ _ h
  obtain ⟨fs7, S2, rfl, hS2, h⟩ := walkE_cons_ok _ _ _ _ h
  obtain rfl := walkE_nil_ok _ _ h
  have hvm : validate_method "get" = .ok "get" := by decide
  have hvs : validate_status_code 200 = .ok () := by decide
  have hlow : pyLower "get" = "get" := by decide
  have hstr : pyStrInt 200 = "200" := by decide
  simp [get_response_schema_section, hvm, hvs, hlow, hstr, validate_string,
    except_bind_ok, index_schema, indexRouteAttempts, routeNoParams,
    hP, hR, hM, hRS, hSC, hC, hAJ, hS2]

theorem c2_lookup_correctness_witness :
    get_response_schema_section itemsSchema none "/items" (routeNoParams "/items")
      "get" 200 false = .ok fragmentS :=
  c2_lookup_correctness itemsSchema fragmentS none false (by decide)

theorem indexRouteAttempts_take :
    ∀ (paths : JSON) (addon : String) (n : Nat) (vs : List String) (st : Option PyErr),
      indexRouteAttempts paths addon n (vs.take n) st
        = indexRouteAttempts paths addon n vs st := by
  intro paths addon n
  induction n with
  | zero => intro vs st; simp [indexRouteAttempts]
  | succ n ih =>
    intro vs st
    cases vs with
    | nil => simp
    | cons v rest =>
      simp only [List.take_succ_cons, indexRouteAttempts]
      cases index_schema paths v addon with
      | ok r => rfl
      | error e => exact ih rest (some e)

theorem indexRouteAttempts_all_fail :
    ∀ (pfs : Fields) (addon : String) (vs : List String) (v0 : String) (st : Option PyErr),
      (∀ v ∈ v0 :: vs, lookupField pfs v = none) →
      indexRouteAttempts (.obj pfs) addon (vs.length + 1) (v0 :: vs) st
        = .error (.undocumentedSchemaSectionError
            (indexErrorMsg (vs.getLastD v0) addon)) := by
  intro pfs addon vs
  induction vs with
  | nil =>
    intro v0 st hfail
    have h0 := hfail v0 (by simp)
    simp [indexRouteAttempts, index_schema, h0]
  | cons v1 rest ih =>
    intro v0 st hfail
    have h0 := hfail v0 (by simp)
    simp only [List.length_cons, indexRouteAttempts, index_schema, h0, List.getLastD_cons]
    exact ih v1 (some (.undocumentedSchemaSectionError (indexErrorMsg v0 addon)))
      (fun v hv => hfail v (List.mem_cons_of_mem _ hv))

/-- C9 (amended): a failed path-level lookup is retried with the route's
parameter substitutions one by one, making at most `1 + N` attempts
(`indexRouteAttempts` never looks beyond the first `1 + N` variants), and when
every variant fails the raised `UndocumentedSchemaSectionError` re-uses the
LAST error encountered (the loop overwrites its stored error on every failed
attempt), whose message names the last attempted variant — checked end to end
on `otherPathsSchema` with the one-parameter route `/items/{id}`. -/
theorem c9_parameterized_retry :
    (∀ (paths : JSON) (addon : String) (n : Nat) (vs : List String) (st : Option PyErr),
        indexRouteAttempts paths addon n (vs.take n) st
          = indexRouteAttempts paths addon n vs st)
    ∧ (∀ (pfs : Fields) (addon : String) (vs : List String) (v0 : String) (st : Option PyErr),
        (∀ v ∈ v0 :: vs, lookupField pfs v = none) →
        indexRouteAttempts (.obj pfs) addon (vs.length + 1) (v0 :: vs) st
          = .error (.undocumentedSchemaSectionError
              (indexErrorMsg (vs.getLastD v0) addon)))
    ∧ get_response_schema_section otherPathsSchema none "/items/{id}" paramRoute
        "get" 200 false
      = .error (.undocumentedSchemaSectionError (indexErrorMsg "/items/42" c9RouteAddon)) := by
  exact ⟨indexRouteAttempts_take, indexRouteAttempts_all_fail, by decide⟩

theorem c9_parameterized_retry_witness :
    indexRouteAttempts (.obj [("/other", JSON.null)]) "" 2 ["/items/{id}", "/items/42"] none
      = .error (.undocumentedSchemaSectionError (indexErrorMsg "/items/42" "")) :=
  c9_parameterized_retry.2.1 [("/other", JSON.null)] "" ["/items/42"] "/items/{id}" none
    (by decide)

/-- C9 counterexample: when both variants of the one-parameter route fail, the
error finally raised carries the message for the LAST attempted variant
(`/items/42`), not the first error encountered (whose message names
`/items/{id}`) — the loop overwrites its stored error on each attempt. -/
theorem c9_counterexample :
    get_response_schema_section otherPathsSchema none "/items/{id}" paramRoute
        "get" 200 false
      = .error (.undocumentedSchemaSectionError (indexErrorMsg "/items/42" c9RouteAddon))
    ∧ indexErrorMsg "/items/42" c9RouteAddon ≠ indexErrorMsg "/items/{id}" c9RouteAddon := by
  decide

theorem containsSubstr_self (s : String) : containsSubstr s s = true := by
  simp [containsSubstr]

theorem containsSubstr_empty_pat (s : String) : containsSubstr s "" = true := by
  simp [containsSubstr]

theorem eq_empty_of_containsSubstr_empty (x : String) :
    containsSubstr "" x = true → x = "" := by
  intro h
  simp only [containsSubstr, decide_eq_true_eq] at h
  obtain ⟨u, v, huv⟩ := h
  cases x with
  | mk l =>
    simp at huv ⊢
    have : l = [] := by
      cases u <;> cases l <;> simp_all
    simp [this]

theorem containsSubstr_append_right (s t pat : String) :
    containsSubstr t pat = true → containsSubstr (s ++ t) pat = true := by
  intro h
  simp only [containsSubstr, decide_eq_true_eq] at h ⊢
  obtain ⟨u, v, huv⟩ := h
  exact ⟨s.data ++ u, v, by rw [String.data_append, ← huv]; simp⟩

theorem containsSubstr_append_left (s t pat : String) :
    containsSubstr s pat = true → containsSubstr (s ++ t) pat = true := by
  intro h
  simp only [containsSubstr, decide_eq_true_eq] at h ⊢
  obtain ⟨u, v, huv⟩ := h
  exact ⟨u, v ++ t.data, by rw [String.data_append, ← huv]; simp⟩

theorem mem_pyJoin_containsSubstr (sep : String) :
    ∀ (l : List String) (x : String), x ∈ l → containsSubstr (pyJoin sep l) x = true := by
  intro l
  induction l with
  | nil => intro x hx; simp at hx
  | cons y ys ih =>
    intro x hx
    cases ys with
    | nil =>
      simp at hx
      subst hx
      simp only [pyJoin]
      exact containsSubstr_self x
    | cons z zs =>
      rcases List.mem_cons.mp hx with rfl | hx2
      · simp only [pyJoin]
        exact containsSubstr_append_left _ _ _
          (containsSubstr_append_left _ _ _ (containsSubstr_self x))
      · simp only [pyJoin]
        exact containsSubstr_append_right _ _ _ (ih x hx2)

theorem ne_empty_of_containsSubstr_ne_empty (s x : String) (hx : x ≠ "")
    (h : containsSubstr s x = true) : s ≠ "" := by
  intro hs
  subst hs
  exact hx (eq_empty_of_containsSubstr_empty x h)

theorem containsSubstr_indexErrorMsg (var addon pat : String)
    (h : containsSubstr addon pat = true) :
    containsSubstr (indexErrorMsg var addon) pat = true := by
  unfold indexErrorMsg
  exact containsSubstr_append_right _ _ _ h

theorem containsSubstr_methodError (joined pat : String)
    (h : containsSubstr joined pat = true) :
    containsSubstr
      (if joined ≠ "" then "\n\nAvailable methods include: " ++ joined ++ "." else "")
      pat = true := by
  by_cases hje : joined = ""
  · subst hje
    have hp : pat = "" := eq_empty_of_containsSubstr_empty _ h
    subst hp
    simp [containsSubstr_empty_pat]
  · rw [if_pos hje]
    exact containsSubstr_append_left _ _ _ (containsSubstr_append_right _ _ _ h)

theorem containsSubstr_statusError (responses s1 s2 s3 pat : String)
    (h : containsSubstr responses pat = true) :
    containsSubstr
      ((((if responses ≠ "" then "\n\nDocumented responses include: " ++ responses ++ ". "
          else "") ++ s1) ++ s2) ++ s3) pat = true := by
  refine containsSubstr_append_left _ _ _
    (containsSubstr_append_left _ _ _ (containsSubstr_append_left _ _ _ ?_))
  by_cases hre : responses = ""
  · subst hre
    have hp : pat = "" := eq_empty_of_containsSubstr_empty _ h
    subst hp
    exact containsSubstr_empty_pat _
  · rw [if_pos hre]
    exact containsSubstr_append_left _ _ _ (containsSubstr_append_right _ _ _ h)

theorem c6_method_level_aux (fs0 pfs rfs : Fields) (i18n : Option String)
    (route method : String) (sc : Int) (skip : Bool) (m : String)
    (hmethod : pyLower method ∈ httpMethods) (hsc : 100 ≤ sc ∧ sc ≤ 505)
    (hpaths : lookupField fs0 "paths" = some (.obj pfs))
    (hroute : lookupField pfs route = some (.obj rfs))
    (hnone : lookupField rfs (pyLower method) = none)
    (hm : m ∈ rfs.map Prod.fst) (hmp : pyUpper m ≠ "PARAMETERS") :
    ∃ msg,
      get_response_schema_section (.obj fs0) i18n route (routeNoParams route) method sc skip
        = .error (.undocumentedSchemaSectionError msg)
      ∧ containsSubstr msg (pyUpper m) = true := by
  have hvm : validate_method method = .ok method := by simp [validate_method, hmethod]
  have hvs : validate_status_code sc = .ok () := by simp [validate_status_code, hsc]
  have hmem : pyUpper m ∈ ((rfs.map Prod.fst).map pyUpper).filter (· ≠ "PARAMETERS") := by
    refine List.mem_filter.mpr ⟨List.mem_map_of_mem _ hm, by simpa using hmp⟩
  have hjm := mem_pyJoin_containsSubstr ", " _ _ hmem
  refine ⟨indexErrorMsg (pyLower method)
    (if pyJoin ", " (((rfs.map Prod.fst).map pyUpper).filter (· ≠ "PARAMETERS")) ≠ ""
     then "\n\nAvailable methods include: "
       ++ pyJoin ", " (((rfs.map Prod.fst).map pyUpper).filter (· ≠ "PARAMETERS")) ++ "."
     else ""), ?_, containsSubstr_indexErrorMsg _ _ _ (containsSubstr_methodError _ _ hjm)⟩
  simp [get_response_schema_section, hvm, hvs, validate_string, except_bind_ok,
    except_bind_error, index_schema, indexRouteAttempts, routeNoParams, hpaths, hroute,
    hnone, objKeys]

theorem c6_status_level_aux (fs0 pfs rfs mfs rsfs : Fields) (i18n : Option String)
    (route method : String) (sc : Int) (skip : Bool) (code : String)
    (hmethod : pyLower method ∈ httpMethods) (hsc : 100 ≤ sc ∧ sc ≤ 505)
    (hpaths : lookupField fs0 "paths" = some (.obj pfs))
    (hroute : lookupField pfs route = some (.obj rfs))
    (hmeth : lookupField rfs (pyLower method) = some (.obj mfs))
    (hresp : lookupField mfs "responses" = some (.obj rsfs))
    (hnone : lookupField rsfs (pyStrInt sc) = none)
    (hcode : code ∈ rsfs.map Prod.fst) :
    ∃ msg,
      get_response_schema_section (.obj fs0) i18n route (routeNoParams route) method sc skip
        = .error (.undocumentedSchemaSectionError msg)
      ∧ containsSubstr msg code = true := by
  have hvm : validate_method method = .ok method := by simp [validate_method, hmethod]
  have hvs : validate_status_code sc = .ok () := by simp [validate_status_code, hsc]
  have hjm := mem_pyJoin_containsSubstr ", " _ _ hcode
  refine ⟨indexErrorMsg (pyStrInt sc)
    ((if pyJoin ", " (rsfs.map Prod.fst) ≠ ""
      then "\n\nDocumented responses include: " ++ pyJoin ", " (rsfs.map Prod.fst) ++ ". "
      else "") ++ " Is the `" ++ pyStrInt sc ++ "` response documented?"), ?_,
    containsSubstr_indexErrorMsg _ _ _ (containsSubstr_statusError _ _ _ _ _ hjm)⟩
  simp [get_response_schema_section, hvm, hvs, validate_string, except_bind_ok,
    except_bind_error, index_schema, indexRouteAttempts, routeNoParams, hpaths, hroute,
    hmeth, hresp, hnone, objKeys]

/-- C6 (amended): the error message of a failed lookup enumerates the sibling
keys actually present at the route, method and status-code levels — proved in
general for the method level (every sibling method, uppercased, with the
reserved `parameters` key excluded, appears in the message) and the
status-code level (every documented status code appears in the message), and
checked concretely for the route level (both documented routes appear, in
whitespace-mangled form).  In particular, looking up status `404` on a schema
documenting only `200` under `GET /items` fails with an
`UndocumentedSchemaSectionError` whose message lists `200`.  The claim's
fourth level is refuted by `c6_counterexample`: a failure at the `paths` level
carries no enumeration of the sibling keys present there. -/
theorem c6_lookup_diagnostics :
    (get_response_schema_section itemsSchema none "/items" (routeNoParams "/items")
        "get" 404 false
      = .error (.undocumentedSchemaSectionError
          "Failed indexing schema.\n\nError: Unsuccessfully tried to index the OpenAPI schema by `404`. \n\nDocumented responses include: 200.  Is the `404` response documented?")
     ∧ containsSubstr
         "Failed indexing schema.\n\nError: Unsuccessfully tried to index the OpenAPI schema by `404`. \n\nDocumented responses include: 200.  Is the `404` response documented?"
         "200" = true)
    ∧ (∀ (fs0 pfs rfs : Fields) (i18n : Option String) (route method : String)
        (sc : Int) (skip : Bool) (m : String),
        pyLower method ∈ httpMethods → 100 ≤ sc ∧ sc ≤ 505 →
        lookupField fs0 "paths" = some (.obj pfs) →
        lookupField pfs route = some (.obj rfs) →
        lookupField rfs (pyLower method) = none →
        m ∈ rfs.map Prod.fst → pyUpper m ≠ "PARAMETERS" →
        ∃ msg,
          get_response_schema_section (.obj fs0) i18n route (routeNoParams route)
              method sc skip
            = .error (.undocumentedSchemaSectionError msg)
          ∧ containsSubstr msg (pyUpper m) = true)
    ∧ (∀ (fs0 pfs rfs mfs rsfs : Fields) (i18n : Option String) (route method : String)
        (sc : Int) (skip : Bool) (code : String),
        pyLower method ∈ httpMethods → 100 ≤ sc ∧ sc ≤ 505 →
        lookupField fs0 "paths" = some (.obj pfs) →
        lookupField pfs route = some (.obj rfs) →
        lookupField rfs (pyLower method) = some (.obj mfs) →
        lookupField mfs "responses" = some (.obj rsfs) →
        lookupField rsfs (pyStrInt sc) = none →
        code ∈ rsfs.map Prod.fst →
        ∃ msg,
          get_response_schema_section (.obj fs0) i18n route (routeNoParams route)
              method sc skip
            = .error (.undocumentedSchemaSectionError msg)
          ∧ containsSubstr msg code = true)
    ∧ (get_response_schema_section twoRouteSchema none "/x" (routeNoParams "/x")
        "get" 200 false
      = .error (.undocumentedSchemaSectionError
          (indexErrorMsg "/x"
            "\n\nFor debugging purposes, other valid routes include: \n\n\t• /a,\n\t• /b"))
     ∧ containsSubstr
         (indexErrorMsg "/x"
           "\n\nFor debugging purposes, other valid routes include: \n\n\t• /a,\n\t• /b")
         "/a" = true
     ∧ containsSubstr
         (indexErrorMsg "/x"
           "\n\nFor debugging purposes, other valid routes include: \n\n\t• /a,\n\t• /b")
         "/b" = true) := by
  refine ⟨⟨by decide, by decide⟩, ?_, ?_, by decide, by decide, by decide⟩
  · intro fs0 pfs rfs i18n route method sc skip m h1 h2 h3 h4 h5 h6 h7
    exact c6_method_level_aux fs0 pfs rfs i18n route method sc skip m h1 h2 h3 h4 h5 h6 h7
  · intro fs0 pfs rfs mfs rsfs i18n route method sc skip code h1 h2 h3 h4 h5 h6 h7 h8
    exact c6_status_level_aux fs0 pfs rfs mfs rsfs i18n route method sc skip code
      h1 h2 h3 h4 h5 h6 h7 h8

theorem c6_lookup_diagnostics_witness :
    (∃ msg,
      get_response_schema_section itemsSchema none "/items" (routeNoParams "/items")
          "options" 200 false
        = .error (.undocumentedSchemaSectionError msg)
      ∧ containsSubstr msg (pyUpper "get") = true)
    ∧ (∃ msg,
      get_response_schema_section itemsSchema none "/items" (routeNoParams "/items")
          "get" 404 false
        = .error (.undocumentedSchemaSectionError msg)
      ∧ containsSubstr msg "200" = true) :=
  ⟨c6_lookup_diagnostics.2.1
      [("paths", .obj [("/items", .obj [("get", .obj [("responses",
        .obj [("200", .obj [("content", .obj [("application/json",
          .obj [("schema", fragmentS)])])])])])])])]
      [("/items", .obj [("get", .obj [("responses", .obj [("200", .obj [("content",
        .obj [("application/json", .obj [("schema", fragmentS)])])])])])])]
      [("get", .obj [("responses", .obj [("200", .obj [("content",
        .obj [("application/json", .obj [("schema", fragmentS)])])])])])]
      none "/items" "options" 200 false
      "get" (by decide) (by decide) (by decide) (by decide) (by decide) (by decide)
      (by decide),
   c6_lookup_diagnostics.2.2.1
      [("paths", .obj [("/items", .obj [("get", .obj [("responses",
        .obj [("200", .obj [("content", .obj [("application/json",
          .obj [("schema", fragmentS)])])])])])])])]
      [("/items", .obj [("get", .obj [("responses", .obj [("200", .obj [("content",
        .obj [("application/json", .obj [("schema", fragmentS)])])])])])])]
      [("get", .obj [("responses", .obj [("200", .obj [("content",
        .obj [("application/json", .obj [("schema", fragmentS)])])])])])]
      [("responses", .obj [("200", .obj [("content",
        .obj [("application/json", .obj [("schema", fragmentS)])])])])]
      [("200", .obj [("content", .obj [("application/json",
        .obj [("schema", fragmentS)])])])]
      none "/items" "get" 404 false "200"
      (by decide) (by decide) (by decide) (by decide) (by decide) (by decide) (by decide)
      (by decide)⟩

/-- C6 counterexample: a failure at the `paths` level does not enumerate the
sibling keys present at that level — two schemas with different top-level
sibling keys (`info` vs `swagger`) produce the identical constant error
message, which mentions neither sibling. -/
theorem c6_counterexample :
    get_response_schema_section noPathsSchema1 none "/items" (routeNoParams "/items")
        "get" 200 false
      = .error (.undocumentedSchemaSectionError (indexErrorMsg "paths" ""))
    ∧ get_response_schema_section noPathsSchema2 none "/items" (routeNoParams "/items")
        "get" 200 false
      = .error (.undocumentedSchemaSectionError (indexErrorMsg "paths" ""))
    ∧ containsSubstr (indexErrorMsg "paths" "") "info" = false
    ∧ containsSubstr (indexErrorMsg "paths" "") "swagger" = false := by
  refine ⟨by decide, by decide, by decide, by decide⟩

/-- C7 (amended): the example synthesizer fetches `schema['type']` before it
consults `example`, so a node missing `type` raises the missing-key fault (the
spec's `SchemaShapeError`) even when it declares an `example`; when `type` is
present, a declared `example` is returned verbatim with no further recursion,
and a scalar-typed node without an example yields the type placeholder.  The
claim's assertions that an `example` is returned regardless of a missing
`type` and that a missing `type` is the only failure path are refuted by
`c7_counterexample` (a non-mapping property value raises `ValueError` as
well). -/
theorem c7_example_synthesis :
    (∀ (fs : Fields) (t ex : JSON),
        lookupField fs "type" = some t → lookupField fs "example" = some ex →
        create_dict_from_schema (.obj fs) = .ok ex)
    ∧ (∀ (fs : Fields), lookupField fs "type" = none →
        create_dict_from_schema (.obj fs) = .error .keyError)
    ∧ create_dict_from_schema (.obj [("type", .str "integer")])
        = .ok (type_placeholder_value (.str "integer")) := by
  refine ⟨?_, ?_, by decide⟩
  · intro fs t ex h1 h2
    simp [create_dict_from_schema, h1, h2]
  · intro fs h1
    simp [create_dict_from_schema, h1]

theorem c7_example_synthesis_witness :
    create_dict_from_schema
        (.obj [("type", .str "string"), ("example", .str "Alice")])
      = .ok (.str "Alice")
    ∧ create_dict_from_schema (.obj [("title", .str "x")]) = .error .keyError :=
  ⟨c7_example_synthesis.1 [("type", .str "string"), ("example", .str "Alice")]
      (.str "string") (.str "Alice") (by decide) (by decide),
   c7_example_synthesis.2.1 [("title", .str "x")] (by decide)⟩

/-- C7 counterexample: a node declaring a literal `example` but no `type` does
not return the example verbatim — `schema['type']` is fetched first and the
call fails with the missing-key fault; hence a node can fail even though it is
not "lacking both example handling applicability and a type key". -/
theorem c7_counterexample :
    create_dict_from_schema (.obj [("example", .num 5)]) = .error .keyError
    ∧ create_dict_from_schema (.obj [("example", .num 5)]) ≠ .ok (.num 5) := by
  refine ⟨by decide, by decide⟩

theorem containsSubstr_of_pyEndsWith (s suf : String) (h : pyEndsWith s suf = true) :
    containsSubstr s suf = true := by
  simp only [pyEndsWith, decide_eq_true_eq] at h
  obtain ⟨t, ht⟩ := h
  simp only [containsSubstr, decide_eq_true_eq]
  exact ⟨t, [], by simp [ht]⟩

/-- C8 (amended): the static loader refuses unreadable paths with
`ImproperlyConfigured` (the spec's `ConfigurationError`), parses as JSON
whenever `.json` occurs anywhere in the path (in particular every path ending
in `.json`), parses as YAML when `.json` does not occur but `.yaml` or `.yml`
does, and fails with `ImproperlyConfigured` when none of the three markers
occurs.  The selection is by substring containment, not by file extension:
`c8_counterexample` exhibits a path ending in `.yaml` that is parsed as
JSON. -/
theorem c8_static_loader_dialects :
    (∀ (path : String) (fc : String → Option String), fc path = none →
        StaticSchemaLoader.load_schema fc path
          = .error (.improperlyConfigured
              ("The path `" ++ path
                ++ "` does not point to a valid file. Make sure to point to the specification file.")))
    ∧ (∀ (path : String) (fc : String → Option String) (content : String),
        fc path = some content → pyEndsWith path ".json" = true →
        StaticSchemaLoader.load_schema fc path = .ok (.json content))
    ∧ (∀ (path : String) (fc : String → Option String) (content : String),
        fc path = some content → containsSubstr path ".json" = false →
        (containsSubstr path ".yaml" = true ∨ containsSubstr path ".yml" = true) →
        StaticSchemaLoader.load_schema fc path = .ok (.yaml content))
    ∧ (∀ (path : String) (fc : String → Option String) (content : String),
        fc path = some content → containsSubstr path ".json" = false →
        containsSubstr path ".yaml" = false → containsSubstr path ".yml" = false →
        StaticSchemaLoader.load_schema fc path
          = .error (.improperlyConfigured
              "The specified file path does not seem to point to a JSON or YAML file.")) := by
  refine ⟨?_, ?_, ?_, ?_⟩
  · intro path fc h
    simp [StaticSchemaLoader.load_schema, h]
  · intro path fc content hfc hend
    have hjson := containsSubstr_of_pyEndsWith path ".json" hend
    simp [StaticSchemaLoader.load_schema, hfc, hjson]
  · intro path fc content hfc hjson hy
    simp [StaticSchemaLoader.load_schema, hfc, hjson, hy]
  · intro path fc content hfc hjson hyaml hyml
    simp [StaticSchemaLoader.load_schema, hfc, hjson, hyaml, hyml]

theorem c8_static_loader_dialects_witness :
    StaticSchemaLoader.load_schema (fun _ => none) "spec.json"
      = .error (.improperlyConfigured
          "The path `spec.json` does not point to a valid file. Make sure to point to the specification file.")
    ∧ StaticSchemaLoader.load_schema (fun _ => some "j") "spec.json" = .ok (.json "j")
    ∧ StaticSchemaLoader.load_schema (fun _ => some "y") "spec.yaml" = .ok (.yaml "y")
    ∧ StaticSchemaLoader.load_schema (fun _ => some "t") "spec.txt"
      = .error (.improperlyConfigured
          "The specified file path does not seem to point to a JSON or YAML file.") :=
  ⟨c8_static_loader_dialects.1 "spec.json" (fun _ => none) rfl,
   c8_static_loader_dialects.2.1 "spec.json" (fun _ => some "j") "j" rfl (by decide),
   c8_static_loader_dialects.2.2.1 "spec.yaml" (fun _ => some "y") "y" rfl (by decide)
     (Or.inl (by decide)),
   c8_static_loader_dialects.2.2.2 "spec.txt" (fun _ => some "t") "t" rfl (by decide)
     (by decide) (by decide)⟩

/-- C8 counterexample: dialect selection is by substring, not extension — the
path `spec.json.yaml` ends in `.yaml` (and not in `.json`), yet the loader
parses its content as JSON, so a path is parsed under the wrong dialect. -/
theorem c8_counterexample :
    StaticSchemaLoader.load_schema (fun _ => some "content") "spec.json.yaml"
      = .ok (.json "content")
    ∧ pyEndsWith "spec.json.yaml" ".yaml" = true
    ∧ pyEndsWith "spec.json.yaml" ".json" = false := by
  refine ⟨by decide, by decide, by decide⟩
